import Mathlib

/-!
# Verification of the AgentExpert stage-orchestration engine

Shallow embedding of the control-flow core of the repository: the manager
routing node of `graphs/super_graph.py`, the retrieval stage of
`graphs/team2_graph.py` / `agents/team2_agents.py`, and the retry loops of
`graphs/team1_graph.py` / `graphs/team3_graph.py` with the counter handling of
`agents/team1_agents.py` / `agents/team3_agents.py`.

LangGraph semantics used throughout: every node receives a state snapshot that
is built fresh from the graph channels for each invocation, and only the dict
the node RETURNS is applied to the channels (through the channel reducers);
in-place writes to the snapshot are discarded.  The `rag_docs` / `web_docs`
channels of `state.py` are `Annotated[List[Document], operator.add]` channels,
so an update is CONCATENATED onto the current channel value; the integer
counters are last-value channels.  Nondeterministic collaborators (the routing
LLM, the per-document judge, the two retrieval back ends) are modelled as
explicit oracle inputs.
-/

namespace AgentExpert

/-! ## Configuration constants (config.py, team2_agents.py, graph modules) -/

/-- `config.MAX_RETRIES_TEAM1` (config.py:53). -/
def MAX_RETRIES_TEAM1 : Nat := 2

/-- `config.MAX_RETRIES_TEAM2` (config.py:54). -/
def MAX_RETRIES_TEAM2 : Nat := 4

/-- `config.MAX_RETRIES_TEAM3` (config.py:55). -/
def MAX_RETRIES_TEAM3 : Nat := 2

/-- `config.MAX_GLOBAL_LOOPS` (config.py:56). -/
def MAX_GLOBAL_LOOPS : Nat := 2

/-- `semantic_relevance_THRESHOLD = 0.5` (team2_agents.py:17). -/
def semantic_relevance_THRESHOLD : ℚ := mkRat 1 2

/-- `is_detailed_THRESHOLD = 0.5` (team2_agents.py:18). -/
def is_detailed_THRESHOLD : ℚ := mkRat 1 2

/-- `total_docs_required = 5` (team2_agents.py:21), the accepted-evidence quota. -/
def total_docs_required : Nat := 5

/-- `MAX_RETRIES = 2` local to graphs/team1_graph.py (line 9). -/
def team1_graph_MAX_RETRIES : Nat := 2

/-- `MAX_RETRIES = 2` local to graphs/team2_graph.py (line 9). -/
def team2_graph_MAX_RETRIES : Nat := 2

/-- `MAX_RETRIES = 2` local to graphs/team3_graph.py (line 9). -/
def team3_graph_MAX_RETRIES : Nat := 2

/-! ## Manager node (graphs/super_graph.py, `manager_agent`) -/

/-- The JSON decision parsed from the routing LLM (schema `ManagerDecision`,
super_graph.py:15-19), after the `.get` defaulting on lines 96-98:
`next_team = result.get("next_team", "end")`, `feedback = result.get("feedback")`. -/
structure ManagerDecision where
  next_team : String
  feedback : Option String
  reason : String
deriving Repr, DecidableEq

/-- The data `manager_agent` reads from the run, plus the collaborator oracle:
the name and content of `state["messages"][-1]` and the outcome of the
`chain.invoke` call (`.error` models the `except Exception` path,
super_graph.py:128-130). -/
structure ManagerInput where
  last_name : String
  last_content : String
  llm : Except Unit ManagerDecision
deriving Repr

/-- The update dict returned by `manager_agent`.  `Option` fields model keys
that may be absent from the returned dict (an absent key leaves the
corresponding last-value channel unchanged). -/
structure ManagerUpdate where
  next_team_to_call : String
  manager_feedback : Option String
  global_loop_count : Option Nat
  team1_retries : Option Nat
  team2_retries : Option Nat
  team3_retries : Option Nat
deriving Repr, DecidableEq

/-- Feedback string of the loop-budget override (super_graph.py:42 and 108). -/
def loopTerminationMsg : String := "Process terminated to prevent an infinite loop."

/-- Feedback attached to the deterministic backward redirect (super_graph.py:36). -/
def team2FailFeedback : String :=
  "Team2가 자료 수집에 실패했습니다. 더 구체적이고 협의된 검색 쿼리를 생성하세요."

/-- Feedback of the `except Exception` return (super_graph.py:130). -/
def managerErrorMsg : String := "매니저 에이전트 실행 중 오류가 발생했습니다."

/-- `manager_agent` (super_graph.py:23-130) as a function of the current
`global_loop_count` channel value and the inputs/oracle above.

* Lines 32-51: deterministic guard — if the last message is `team2_evaluator`
  with content `"fail"`, increment the loop count; terminate when the
  incremented count has reached `MAX_GLOBAL_LOOPS`, otherwise redirect to
  `team1` with revision feedback and reset `team1_retries` to 0.
* Lines 89-126: otherwise ask the routing LLM; a backward loop is recognised
  exactly when the last message is from `team2_evaluator` and the LLM chose
  `team1` (line 100); the incremented count is checked against the ceiling and
  the decision overridden to `end` when it is reached (lines 102-108); the
  team named by the final decision gets its retry counter reset (lines 118-124).
* Lines 128-130: an exception from the LLM chain returns `end` with an error
  message and no other keys. -/
def manager_agent (glc : Nat) (i : ManagerInput) : ManagerUpdate :=
  if i.last_name = "team2_evaluator" ∧ i.last_content = "fail" then
    let g := glc + 1
    if MAX_GLOBAL_LOOPS ≤ g then
      { next_team_to_call := "end"
        manager_feedback := some loopTerminationMsg
        global_loop_count := some g
        team1_retries := none, team2_retries := none, team3_retries := none }
    else
      { next_team_to_call := "team1"
        manager_feedback := some team2FailFeedback
        global_loop_count := some g
        team1_retries := some 0, team2_retries := none, team3_retries := none }
  else
    match i.llm with
    | .error _ =>
      { next_team_to_call := "end"
        manager_feedback := some managerErrorMsg
        global_loop_count := none
        team1_retries := none, team2_retries := none, team3_retries := none }
    | .ok r =>
      let is_backward_loop := i.last_name = "team2_evaluator" ∧ r.next_team = "team1"
      let g := if is_backward_loop then glc + 1 else glc
      let overridden := is_backward_loop ∧ MAX_GLOBAL_LOOPS ≤ g
      let next_team := if overridden then "end" else r.next_team
      let feedback := if overridden then some loopTerminationMsg else r.feedback
      { next_team_to_call := next_team
        manager_feedback := feedback
        global_loop_count := some g
        team1_retries := if next_team = "team1" then some 0 else none
        team2_retries := if next_team = "team2" then some 0 else none
        team3_retries := if next_team = "team3" then some 0 else none }

/-- The manager-level control loop of the super graph: starting from a
`global_loop_count` channel value, consume one `ManagerInput` per visit to the
manager node, applying the returned update to the channel (an absent
`global_loop_count` key leaves it unchanged), until the manager routes to
`end` (`route_from_manager`, super_graph.py:150-155).  Returns the terminal
update together with the `global_loop_count` channel value at termination, or
`none` when the supplied trace runs out before termination. -/
def managerRun (glc : Nat) : List ManagerInput → Option (ManagerUpdate × Nat)
  | [] => none
  | i :: rest =>
    let u := manager_agent glc i
    let g := u.global_loop_count.getD glc
    if u.next_team_to_call = "end" then some (u, g) else managerRun g rest

/-- A stage-2 terminal-Fail report as seen by the manager: the last message is
from `team2_evaluator` with content `"fail"`.  The deterministic guard never
consults the LLM on this input, so the oracle value is irrelevant. -/
def team2FailInput : ManagerInput := ⟨"team2_evaluator", "fail", .error ()⟩

/-- Stage 2 fails twice in a row: the first report is redirected backward, the
second hits the loop ceiling. -/
def twoFailTrace : List ManagerInput := [team2FailInput, team2FailInput]

/-- A stage-3 quality failure as the manager sees it: `evaluate_answer` emits
its verdict under the message name `final_evaluator` (team3_agents.py:328-343),
and the routing LLM is instructed, on content `"fail"`, to call team3 again
with feedback (super_graph.py:75-77). -/
def stage3FailInput : ManagerInput :=
  ⟨"final_evaluator", "fail", .ok ⟨"team3", some "답변을 보완하세요", "품질 기준 미달"⟩⟩

/-! ## Retrieval stage (graphs/team2_graph.py, agents/team2_agents.py)

Documents are opaque (`Doc` is a type parameter).  The per-document judge of
`evaluate_documents` is the oracle `evalDoc`; `.error` models the
`except Exception` branch of the per-document loop (team2_agents.py:200-201),
including a pydantic validation failure of the parsed scores.  Scores are
rationals (the code compares Python floats produced from the fixed grid
0.00/0.25/0.50/0.75/1.00 against 0.5, which is exact). -/

/-- Parsed per-document judgment (schema `DocEvaluationResult`,
team2_agents.py:24-27). -/
structure DocEvaluationResult where
  semantic_relevance : ℚ
  is_detailed : ℚ
  error_message : String
deriving Repr, DecidableEq

/-- The slice of a `messages`-channel entry that team2 nodes read: `name`,
`content`, and the `additional_kwargs` entries `source_docs` (defaulting to
the empty list) and `failed_reason` (defaulting to `""`). -/
structure Msg (Doc : Type) where
  name : String
  content : String
  source_docs : List Doc
  failed_reason : String
deriving Repr, DecidableEq

/-- State channels read by the team2 subgraph.  `rag_docs` / `web_docs` are
`Annotated[List[Document], operator.add]` channels (state.py:32-33): langgraph
backs them with a `BinaryOperatorAggregate`, which instantiates the channel
with `list()` when the graph starts, so `state.get(...)` yields a list (never
`None`) from the first step on; `none` here models the channel never having
been materialised at all.  `team2_retries` is a plain last-value channel. -/
structure Team2State (Doc : Type) where
  last_message : Msg Doc
  rag_docs : Option (List Doc)
  web_docs : Option (List Doc)
  team2_retries : Nat
deriving Repr, DecidableEq

/-- The update dict a team2 node returns: the appended message plus the
optional channel writes (`none` = key absent from the dict). -/
structure Team2Update (Doc : Type) where
  message : Msg Doc
  rag_docs : Option (List Doc)
  web_docs : Option (List Doc)
  team2_retries : Option Nat
deriving Repr, DecidableEq

/-- Channel application of a node update: the message is appended (so it
becomes `messages[-1]`), a list value is CONCATENATED onto the accumulator
channel by the `operator.add` reducer, and a counter value replaces the
last-value channel. -/
def applyTeam2Update {Doc : Type} (s : Team2State Doc) (u : Team2Update Doc) :
    Team2State Doc :=
  { last_message := u.message
    rag_docs :=
      match u.rag_docs with
      | none => s.rag_docs
      | some l => some (s.rag_docs.getD [] ++ l)
    web_docs :=
      match u.web_docs with
      | none => s.web_docs
      | some l => some (s.web_docs.getD [] ++ l)
    team2_retries := u.team2_retries.getD s.team2_retries }

/-- `rag_search` (team2_agents.py:48-71).  `query_found` is
`bool(_get_query_from_history(state))`; `fetch` is the
`vector_store_rag_search` call (`.error` = the `except Exception` branch).
On success the node appends a `rag_search_result` message carrying the fetched
documents in `source_docs` and writes empty lists to both accumulator
channels (a no-op under the concatenation reducer); the message content is
`format_docs(...)` rendered text, which no claim reads, so it is left `""`. -/
def rag_search {Doc : Type} (query_found : Bool)
    (fetch : Except String (List Doc)) : Team2Update Doc :=
  if ¬ query_found then
    { message :=
        { name := "rag_search", content := "fail: RAG 쿼리를 찾을 수 없습니다.",
          source_docs := [], failed_reason := "" },
      rag_docs := none, web_docs := none, team2_retries := none }
  else
    match fetch with
    | .ok docs =>
      { message :=
          { name := "rag_search_result", content := "",
            source_docs := docs, failed_reason := "" },
        rag_docs := some [], web_docs := some [], team2_retries := none }
    | .error e =>
      { message :=
          { name := "rag_search", content := "fail: RAG 검색 오류 - " ++ e,
            source_docs := [], failed_reason := "" },
        rag_docs := none, web_docs := none, team2_retries := none }

/-- `web_search` (team2_agents.py:74-91): fetch up to `web_search_num`
results and append a `web_search_result` message carrying them; no channel
writes besides the message. -/
def web_search {Doc : Type} (fetch : Except String (List Doc)) :
    Team2Update Doc :=
  match fetch with
  | .ok docs =>
    { message :=
        { name := "web_search_result", content := "",
          source_docs := docs, failed_reason := "" },
      rag_docs := none, web_docs := none, team2_retries := none }
  | .error e =>
    { message :=
        { name := "web_search", content := "fail: 웹 검색 오류 - " ++ e,
          source_docs := [], failed_reason := "" },
      rag_docs := none, web_docs := none, team2_retries := none }

/-- The per-document acceptance test (team2_agents.py:190-201):
`is_pass = (r.semantic_relevance >= semantic_relevance_THRESHOLD) and
(r.is_detailed >= is_detailed_THRESHOLD)`; a judge failure on a document puts
it on the rejected list. -/
def doc_passes {Doc : Type} (evalDoc : Doc → Except String DocEvaluationResult)
    (d : Doc) : Bool :=
  match evalDoc d with
  | .ok r =>
    decide (semantic_relevance_THRESHOLD ≤ r.semantic_relevance) &&
      decide (is_detailed_THRESHOLD ≤ r.is_detailed)
  | .error _ => false

/-- The `accepted` list built by the per-document loop of
`evaluate_documents` (team2_agents.py:187-201): each fetched unit is judged
independently and kept in order exactly when it passes both thresholds. -/
def accepted_docs {Doc : Type} (evalDoc : Doc → Except String DocEvaluationResult)
    (docs : List Doc) : List Doc :=
  docs.filter (doc_passes evalDoc)

/-- `evaluate_documents` (team2_agents.py:94-259).

* `docs_to_evaluate = last_message.additional_kwargs.get("source_docs", [])`;
  `source = "web" if last_message.name == "web_search_result" else "rag"`;
  the accumulators are copied from the channels; `current_retries` from
  `team2_retries`.
* Empty fetch (lines 106-131): the retry counter is incremented; the decision
  is `fallback_to_web`/`retry_web` unless the incremented counter has reached
  `MAX_RETRIES_TEAM2`, in which case it is `fail` and `failed_reason` is
  `no_docs_to_evaluate`; the copied accumulators are written back (which the
  concatenation reducer re-appends).
* Otherwise each unit is judged independently; accepted units are appended to
  the accumulator of the current source (the `if accepted:` guard in the
  source only skips appending an empty list, which is the identity).  If the
  combined total reaches `total_docs_required` the node reports `pass` and
  resets the retry counter to 0; otherwise it increments the counter, with
  `failed_reason = "budget_exhausted"` when the decision degrades to `fail`.
* The `rejected` list the loop also builds is never used after the loop and
  is omitted. -/
def evaluate_documents {Doc : Type}
    (evalDoc : Doc → Except String DocEvaluationResult) (s : Team2State Doc) :
    Team2Update Doc :=
  let docs_to_evaluate := s.last_message.source_docs
  let source_is_web := s.last_message.name = "web_search_result"
  let rag_acc := s.rag_docs.getD []
  let web_acc := s.web_docs.getD []
  let current_retries := s.team2_retries
  if docs_to_evaluate.isEmpty then
    let decision0 := if source_is_web then "retry_web" else "fallback_to_web"
    let next_retries := current_retries + 1
    let decision := if MAX_RETRIES_TEAM2 ≤ next_retries then "fail" else decision0
    { message :=
        { name := "team2_evaluator", content := decision,
          source_docs := [],
          failed_reason := if decision = "fail" then "no_docs_to_evaluate" else "" },
      rag_docs := some rag_acc, web_docs := some web_acc,
      team2_retries := some next_retries }
  else
    let accepted := accepted_docs evalDoc docs_to_evaluate
    let rag_acc2 := if source_is_web then rag_acc else rag_acc ++ accepted
    let web_acc2 := if source_is_web then web_acc ++ accepted else web_acc
    let total := rag_acc2.length + web_acc2.length
    if total_docs_required ≤ total then
      { message :=
          { name := "team2_evaluator", content := "pass",
            source_docs := [], failed_reason := "" },
        rag_docs := some rag_acc2, web_docs := some web_acc2,
        team2_retries := some 0 }
    else
      let decision0 := if source_is_web then "retry_web" else "fallback_to_web"
      let next_retries := current_retries + 1
      let decision := if MAX_RETRIES_TEAM2 ≤ next_retries then "fail" else decision0
      { message :=
          { name := "team2_evaluator", content := decision,
            source_docs := [],
            failed_reason := if decision = "fail" then "budget_exhausted" else "" },
        rag_docs := some rag_acc2, web_docs := some web_acc2,
        team2_retries := some next_retries }

/-- Routing targets of the team2 conditional edge (`END` = `finish`). -/
inductive T2Route where
  | rag_search
  | web_search
  | finish
deriving Repr, DecidableEq

/-- `state.get("status", {}).get("team2")` as read by `retrieval_router`
(team2_graph.py:20).  The `AgentState` schema (state.py) has no `status`
channel and no node of the team2 graph writes such a key — only the retired
`supervisor_*` pipeline (main_graph.py) does — so the lookup always yields the
empty-dict default and the result is `None`. -/
def team2_status {Doc : Type} (_s : Team2State Doc) : Option String := none

/-- `web_search_attempted = state.get("web_docs") is not None`
(team2_graph.py:17).  The `web_docs` channel is a `BinaryOperatorAggregate`
over `list`, initialised to `list()` when the graph starts, so the lookup is
never `None` and the flag is always true. -/
def web_search_attempted {Doc : Type} (_s : Team2State Doc) : Bool := true

/-- `retrieval_router` (team2_graph.py:11-40), deciding retry, fallback,
success or failure after each `evaluate_documents` step.  The in-place write
`state["team2_retries"] = 0` on the pass path (line 23) is a snapshot
mutation, not a channel update, and is dropped. -/
def retrieval_router {Doc : Type} (s : Team2State Doc) : T2Route :=
  let retries := s.team2_retries
  if team2_status s = some "pass" then T2Route.finish
  else if ¬ web_search_attempted s then
    if retries < team2_graph_MAX_RETRIES then T2Route.rag_search
    else T2Route.web_search
  else
    if retries < team2_graph_MAX_RETRIES then T2Route.web_search
    else T2Route.finish

/-- One node execution of the team2 subgraph, labelled with its oracle
inputs. -/
inductive Team2Event (Doc : Type) where
  | ragSearch (query_found : Bool) (fetch : Except String (List Doc))
  | webSearch (fetch : Except String (List Doc))
  | evalDocs (evalDoc : Doc → Except String DocEvaluationResult)

/-- Apply one node of the team2 subgraph to the channel state. -/
def team2NodeStep {Doc : Type} (s : Team2State Doc) :
    Team2Event Doc → Team2State Doc
  | .ragSearch q f => applyTeam2Update s (rag_search q f)
  | .webSearch f => applyTeam2Update s (web_search f)
  | .evalDocs ev => applyTeam2Update s (evaluate_documents ev s)

/-- A team2 subgraph execution: fold the node steps over the channel state. -/
def team2Exec {Doc : Type} (s : Team2State Doc) :
    List (Team2Event Doc) → Team2State Doc
  | [] => s
  | e :: es => team2Exec (team2NodeStep s e) es

/-- Channel state at team2 subgraph entry: both accumulator channels hold the
empty list (`BinaryOperatorAggregate` initialisation), and `team2_retries` is
0 — both the run entry point (app.py:118-125) and every manager redirect into
team2 (super_graph.py:121-122) set it to 0. -/
def team2Init {Doc : Type} : Team2State Doc :=
  { last_message :=
      { name := "manager", content := "", source_docs := [],
        failed_reason := "" },
    rag_docs := some [], web_docs := some [], team2_retries := 0 }

/-- The accepted-evidence collection of the retrieval stage: the accumulated
`rag_docs` plus `web_docs` (what the pass branch combines on
team2_agents.py:213). -/
def accepted_evidence {Doc : Type} (s : Team2State Doc) : List Doc :=
  s.rag_docs.getD [] ++ s.web_docs.getD []

/-- A judge that scores every document 0.00 / 0.00 — both criteria below the
0.5 thresholds, so nothing is accepted. -/
def zeroScoreJudge : Nat → Except String DocEvaluationResult :=
  fun _ => .ok ⟨0, 0, ""⟩

/-- A judge that scores every document 1.00 / 1.00 — both criteria clear the
thresholds, so everything is accepted. -/
def fullScoreJudge : Nat → Except String DocEvaluationResult :=
  fun _ => .ok ⟨1, 1, ""⟩

/-- Channel state right after a `rag_search_result` message carrying no
documents (an empty fetch), with a fresh retry budget. -/
def emptyFetchState : Team2State Nat :=
  { last_message :=
      { name := "rag_search_result", content := "",
        source_docs := [], failed_reason := "" },
    rag_docs := some [], web_docs := some [], team2_retries := 0 }

/-- An empty web fetch arriving with the retry counter at 3: the increment
reaches `MAX_RETRIES_TEAM2 = 4` and the decision degrades to `fail`. -/
def emptyFetchLastState : Team2State Nat :=
  { last_message :=
      { name := "web_search_result", content := "",
        source_docs := [], failed_reason := "" },
    rag_docs := some [], web_docs := some [], team2_retries := 3 }

/-- A state whose `rag_docs` channel already holds one accepted document, with
an empty fetch pending evaluation. -/
def oneDocState : Team2State Nat :=
  { last_message :=
      { name := "rag_search_result", content := "",
        source_docs := [], failed_reason := "" },
    rag_docs := some [7], web_docs := some [], team2_retries := 0 }

/-! ## Stage 1 and stage 3 retry loops
(graphs/team1_graph.py, graphs/team3_graph.py)

`evaluate_question` (team1_agents.py:116-227) and `evaluate_answer`
(team3_agents.py:256-343) read their retry counter and then increment it with
an in-place write to the state snapshot (`state["team1_retries"] =
current_retries + 1`, line 123, resp. `state["team3_retries"] =
current_retries + 1`, line 264).  Langgraph builds that snapshot fresh from
the channels for every node invocation and applies only the RETURNED dict as
a channel update; every `return` of both evaluators carries only a `messages`
entry, so the increment never reaches the counter channel.  Likewise no node
of either subgraph writes a `status` key (and `AgentState` has no such
channel), so the routers' `state.get("status", {}).get(...)` is always
`None`. -/

/-- Team1 subgraph channel state: the `team1_retries` last-value channel plus
the number of evaluator outcome messages appended so far. -/
structure Team1State where
  team1_retries : Nat
  outcome_count : Nat
deriving Repr, DecidableEq

/-- The update dict returned by `evaluate_question`: an outcome message
(content `pass` / `retry: ...` / `fail: ...`) and no `team1_retries` key. -/
structure Team1Update where
  outcome : String
  team1_retries : Option Nat
deriving Repr, DecidableEq

/-- `evaluate_question` as an update: whatever the judged outcome, the
returned dict never contains `team1_retries` (team1_agents.py:116-227). -/
def evaluate_question (outcome : String) : Team1Update :=
  { outcome := outcome, team1_retries := none }

/-- Apply one worker+evaluator round to the team1 channels: the outcome
message is appended and the counter channel takes the returned value if the
key is present. -/
def applyTeam1Update (s : Team1State) (u : Team1Update) : Team1State :=
  { team1_retries := u.team1_retries.getD s.team1_retries
    outcome_count := s.outcome_count + 1 }

/-- `state.get("status", {}).get("team1")` (team1_graph.py:22): always `None`
(no team1-graph node writes a `status` key). -/
def team1_status (_s : Team1State) : Option String := none

/-- Routing targets of the team1 conditional edge. -/
inductive T1Route where
  | process_question
  | finish
deriving Repr, DecidableEq

/-- `decide_next_step` (team1_graph.py:11-34): finish on a `pass` status,
otherwise retry while `retries < MAX_RETRIES`, else finish. -/
def decide_next_step (s : Team1State) : T1Route :=
  if team1_status s = some "pass" then T1Route.finish
  else if s.team1_retries < team1_graph_MAX_RETRIES then T1Route.process_question
  else T1Route.finish

/-- Run the team1 subgraph loop over a list of evaluator outcomes. -/
def team1Loop (s : Team1State) : List String → Team1State
  | [] => s
  | o :: os => team1Loop (applyTeam1Update s (evaluate_question o)) os

/-- Team3 subgraph channel state. -/
structure Team3State where
  team3_retries : Nat
  outcome_count : Nat
deriving Repr, DecidableEq

/-- The update dict returned by `evaluate_answer`: an outcome message and no
`team3_retries` key (team3_agents.py:256-343; the line-264 increment is an
in-place snapshot write). -/
structure Team3Update where
  outcome : String
  team3_retries : Option Nat
deriving Repr, DecidableEq

/-- `evaluate_answer` as an update. -/
def evaluate_answer (outcome : String) : Team3Update :=
  { outcome := outcome, team3_retries := none }

/-- Apply one generate+evaluate round to the team3 channels. -/
def applyTeam3Update (s : Team3State) (u : Team3Update) : Team3State :=
  { team3_retries := u.team3_retries.getD s.team3_retries
    outcome_count := s.outcome_count + 1 }

/-- `state.get("status", {}).get("team3")` (team3_graph.py:20): always `None`. -/
def team3_status (_s : Team3State) : Option String := none

/-- Routing targets of the team3 conditional edge. -/
inductive T3Route where
  | generate_answer
  | finish
deriving Repr, DecidableEq

/-- `decide_final_step` (team3_graph.py:11-32): finish on a `pass` status,
otherwise retry while `retries <= MAX_RETRIES`, else finish (the
`state["error_message"]` write on the final-failure path is an in-place
snapshot write and is dropped). -/
def decide_final_step (s : Team3State) : T3Route :=
  if team3_status s = some "pass" then T3Route.finish
  else if s.team3_retries ≤ team3_graph_MAX_RETRIES then T3Route.generate_answer
  else T3Route.finish

/-- Run the team3 subgraph loop over a list of evaluator outcomes. -/
def team3Loop (s : Team3State) : List String → Team3State
  | [] => s
  | o :: os => team3Loop (applyTeam3Update s (evaluate_answer o)) os

/-! ## Manager theorems -/

/-- Step bound for the manager under the loop-guard invariant: starting below
the ceiling, the (possibly updated) loop count stays at or below the ceiling,
is strictly below it whenever the manager routes anywhere but `end`, and the
feedback is the loop-termination message whenever the count reaches the
ceiling. -/
theorem manager_agent_step_bound (glc : Nat) (i : ManagerInput)
    (h : glc < MAX_GLOBAL_LOOPS) :
    (manager_agent glc i).global_loop_count.getD glc ≤ MAX_GLOBAL_LOOPS ∧
    ((manager_agent glc i).next_team_to_call ≠ "end" →
      (manager_agent glc i).global_loop_count.getD glc < MAX_GLOBAL_LOOPS) ∧
    ((manager_agent glc i).global_loop_count.getD glc = MAX_GLOBAL_LOOPS →
      (manager_agent glc i).manager_feedback = some loopTerminationMsg) := by
  obtain ⟨ln, lc, llm⟩ := i
  by_cases h1 : ln = "team2_evaluator" ∧ lc = "fail"
  · by_cases h2 : MAX_GLOBAL_LOOPS ≤ glc + 1
    · simp only [manager_agent, if_pos h1, if_pos h2, Option.getD_some]
      exact ⟨by omega, fun hne => (hne rfl).elim, fun _ => by trivial⟩
    · simp only [manager_agent, if_pos h1, if_neg h2, Option.getD_some]
      exact ⟨by omega, fun _ => by omega, fun hg => absurd hg (by omega)⟩
  · cases llm with
    | error e =>
      simp only [manager_agent, if_neg h1, Option.getD_none]
      exact ⟨by omega, fun _ => h, fun hg => absurd hg (by omega)⟩
    | ok r =>
      by_cases hb : ln = "team2_evaluator" ∧ r.next_team = "team1"
      · have hlc : ¬ (lc = "fail") := fun hf => h1 ⟨hb.1, hf⟩
        by_cases h2 : MAX_GLOBAL_LOOPS ≤ glc + 1
        · simp only [manager_agent, if_neg h1, if_pos hb, if_pos (And.intro hb h2),
            Option.getD_some]
          exact ⟨by omega, fun hne => (hne rfl).elim, fun _ => by trivial⟩
        · simp only [manager_agent, if_neg h1, if_pos hb, Option.getD_some]
          rw [if_neg (fun hc => h2 hc.2), if_neg (fun hc => h2 hc.2)]
          exact ⟨by omega, fun _ => by omega, fun hg => absurd hg (by omega)⟩
      · simp only [manager_agent, if_neg h1, if_neg hb, Option.getD_some]
        rw [if_neg (fun hc => hb hc.1), if_neg (fun hc => hb hc.1)]
        exact ⟨by omega, fun _ => h, fun hg => absurd hg (by omega)⟩

/-- The loop-guard invariant propagated along a whole manager run. -/
theorem managerRun_invariant (trace : List ManagerInput) :
    ∀ (glc : Nat), glc < MAX_GLOBAL_LOOPS →
    ∀ (u : ManagerUpdate) (g : Nat), managerRun glc trace = some (u, g) →
      g ≤ MAX_GLOBAL_LOOPS ∧
      (g = MAX_GLOBAL_LOOPS → u.manager_feedback = some loopTerminationMsg) := by
  induction trace with
  | nil => intro glc _ u g hrun; simp [managerRun] at hrun
  | cons i rest ih =>
    intro glc hglc u g hrun
    have hstep := manager_agent_step_bound glc i hglc
    simp only [managerRun] at hrun
    by_cases hend : (manager_agent glc i).next_team_to_call = "end"
    · rw [if_pos hend] at hrun
      simp only [Option.some.injEq, Prod.mk.injEq] at hrun
      obtain ⟨hu, hg⟩ := hrun
      subst hu
      subst hg
      exact ⟨hstep.1, hstep.2.2⟩
    · rw [if_neg hend] at hrun
      exact ih _ (hstep.2.1 hend) u g hrun

/-- C1: for every super-graph run, the `global_loop_count` channel value at
termination is at most `MAX_GLOBAL_LOOPS`, and when it equals the ceiling the
terminal feedback is the loop-budget-exceeded message; moreover, whenever a
stage-2 failure report arrives and the incremented backward counter reaches
the ceiling, the manager overrides the backward redirect and terminates with
that message. -/
theorem global_backward_bound_at_termination :
    (∀ (trace : List ManagerInput) (u : ManagerUpdate) (g : Nat),
        managerRun 0 trace = some (u, g) →
        g ≤ MAX_GLOBAL_LOOPS ∧
        (g = MAX_GLOBAL_LOOPS → u.manager_feedback = some loopTerminationMsg)) ∧
    (∀ (glc : Nat) (i : ManagerInput),
        i.last_name = "team2_evaluator" → i.last_content = "fail" →
        MAX_GLOBAL_LOOPS ≤ glc + 1 →
        (manager_agent glc i).next_team_to_call = "end" ∧
        (manager_agent glc i).manager_feedback = some loopTerminationMsg) := by
  constructor
  · intro trace u g hrun
    exact managerRun_invariant trace 0 (by decide) u g hrun
  · intro glc i h1 h2 h3
    have hg : i.last_name = "team2_evaluator" ∧ i.last_content = "fail" := ⟨h1, h2⟩
    simp only [manager_agent, if_pos hg, if_pos h3]
    exact ⟨by trivial, by trivial⟩

/-- Witness for C1: stage 2 failing twice terminates the run with the loop
count exactly at the ceiling and the loop-budget feedback. -/
theorem global_backward_bound_at_termination_witness :
    managerRun 0 twoFailTrace =
      some (⟨"end", some loopTerminationMsg, some 2, none, none, none⟩, 2) ∧
    2 ≤ MAX_GLOBAL_LOOPS ∧
    (⟨"end", some loopTerminationMsg, some 2, none, none, none⟩ :
      ManagerUpdate).manager_feedback = some loopTerminationMsg := by
  have hrun : managerRun 0 twoFailTrace =
      some (⟨"end", some loopTerminationMsg, some 2, none, none, none⟩, 2) := by decide
  have h := global_backward_bound_at_termination.1 twoFailTrace _ 2 hrun
  exact ⟨hrun, h.1, h.2 rfl⟩

/-- C2 counterexample: with one backward loop already counted
(`global_loop_count = 1`, ceiling `MAX_GLOBAL_LOOPS = 2`), a stage-2
terminal-Fail report is NOT redirected backward to stage 1 — the manager
terminates the run instead.  This refutes the unconditional reading of the
claim. -/
theorem team2_fail_redirect_refuted :
    (manager_agent 1 team2FailInput).next_team_to_call = "end" ∧
    ¬ ((manager_agent 1 team2FailInput).next_team_to_call = "team1") := by
  exact ⟨rfl, by decide⟩

/-- C2 amended: a stage-2 terminal-Fail report always increments the backward
counter by exactly one; when the incremented counter is still below
`MAX_GLOBAL_LOOPS` the manager redirects backward to stage 1 with the
revise-your-search-queries feedback and resets stage 1's retry counter;
otherwise the loop guard terminates the run instead. -/
theorem team2_fail_redirect_amended (glc : Nat) (i : ManagerInput)
    (h1 : i.last_name = "team2_evaluator") (h2 : i.last_content = "fail") :
    (manager_agent glc i).global_loop_count = some (glc + 1) ∧
    (glc + 1 < MAX_GLOBAL_LOOPS →
      (manager_agent glc i).next_team_to_call = "team1" ∧
      (manager_agent glc i).manager_feedback = some team2FailFeedback ∧
      (manager_agent glc i).team1_retries = some 0) ∧
    (MAX_GLOBAL_LOOPS ≤ glc + 1 →
      (manager_agent glc i).next_team_to_call = "end" ∧
      (manager_agent glc i).manager_feedback = some loopTerminationMsg) := by
  have hg : i.last_name = "team2_evaluator" ∧ i.last_content = "fail" := ⟨h1, h2⟩
  by_cases hc : MAX_GLOBAL_LOOPS ≤ glc + 1
  · simp only [manager_agent, if_pos hg, if_pos hc]
    exact ⟨by trivial, fun hlt => absurd hc (by omega), fun _ => ⟨by trivial, by trivial⟩⟩
  · simp only [manager_agent, if_pos hg, if_neg hc]
    exact ⟨by trivial, fun _ => ⟨by trivial, by trivial, by trivial⟩, fun hle => absurd hle hc⟩

/-- Witness for the amended C2 at `global_loop_count = 0`: the counter becomes
1 and the report is redirected backward with a reset stage-1 counter. -/
theorem team2_fail_redirect_amended_witness :
    (manager_agent 0 team2FailInput).global_loop_count = some 1 ∧
    (manager_agent 0 team2FailInput).next_team_to_call = "team1" ∧
    (manager_agent 0 team2FailInput).team1_retries = some 0 := by
  have h := team2_fail_redirect_amended 0 team2FailInput rfl rfl
  have h2 := h.2.1 (by decide)
  exact ⟨h.1, h2.1, h2.2.2⟩

/-- C3: whenever the manager routes to a stage, the update dict it returns
resets that stage's retry counter to exactly 0 (super_graph.py:45-51 and
118-124), so every redirect grants that stage its full retry budget again. -/
theorem manager_redirect_resets_retry_counter (glc : Nat) (i : ManagerInput) :
    ((manager_agent glc i).next_team_to_call = "team1" →
      (manager_agent glc i).team1_retries = some 0) ∧
    ((manager_agent glc i).next_team_to_call = "team2" →
      (manager_agent glc i).team2_retries = some 0) ∧
    ((manager_agent glc i).next_team_to_call = "team3" →
      (manager_agent glc i).team3_retries = some 0) := by
  obtain ⟨ln, lc, llm⟩ := i
  by_cases h1 : ln = "team2_evaluator" ∧ lc = "fail"
  · by_cases h2 : MAX_GLOBAL_LOOPS ≤ glc + 1
    · simp [manager_agent, h1, h2]
    · simp [manager_agent, h1, h2]
  · cases llm with
    | error e => simp [manager_agent, h1]
    | ok r =>
      refine ⟨fun hn => ?_, fun hn => ?_, fun hn => ?_⟩ <;>
        simp only [manager_agent, if_neg h1] at hn ⊢ <;> rw [if_pos hn]

/-- Witness for C3: the deterministic backward redirect to team1 carries
`team1_retries = 0`. -/
theorem manager_redirect_resets_retry_counter_witness :
    (manager_agent 0 team2FailInput).team1_retries = some 0 :=
  (manager_redirect_resets_retry_counter 0 team2FailInput).1 (by decide)

/-- C9 counterexample: a stage-3 Fail report does NOT terminate the run — with
the LLM following its own decision rules the manager re-invokes team3. -/
theorem stage3_fail_terminates_refuted :
    (manager_agent 0 stage3FailInput).next_team_to_call = "team3" ∧
    ¬ ((manager_agent 0 stage3FailInput).next_team_to_call = "end") := by
  exact ⟨rfl, by decide⟩

/-- C9 amended: a stage-3 Fail report is routed purely by the LLM decision
(whose instructions direct re-invoking stage 3 with feedback rather than
terminating); it is never treated as a backward loop, leaves the backward
counter unchanged, and when the decision is `team3` the stage-3 retry counter
is reset. -/
theorem stage3_fail_routing_amended (glc : Nat) (i : ManagerInput)
    (r : ManagerDecision) (h1 : i.last_name = "final_evaluator")
    (h2 : i.llm = .ok r) :
    (manager_agent glc i).next_team_to_call = r.next_team ∧
    (manager_agent glc i).global_loop_count = some glc ∧
    (manager_agent glc i).manager_feedback = r.feedback ∧
    (r.next_team = "team3" → (manager_agent glc i).team3_retries = some 0) := by
  obtain ⟨ln, lc, llm⟩ := i
  simp only at h1 h2
  subst h1
  subst h2
  have hne : ¬ (("final_evaluator" : String) = "team2_evaluator" ∧ lc = "fail") :=
    fun hc => absurd hc.1 (by decide)
  have hnb : ¬ (("final_evaluator" : String) = "team2_evaluator" ∧
      r.next_team = "team1") := fun hc => absurd hc.1 (by decide)
  simp [manager_agent, hne, hnb]

/-- Witness for the amended C9: at the concrete stage-3 failure input the
manager routes to team3, keeps the loop count, and resets `team3_retries`. -/
theorem stage3_fail_routing_amended_witness :
    (manager_agent 0 stage3FailInput).next_team_to_call = "team3" ∧
    (manager_agent 0 stage3FailInput).global_loop_count = some 0 ∧
    (manager_agent 0 stage3FailInput).team3_retries = some 0 := by
  have h := stage3_fail_routing_amended 0 stage3FailInput
    ⟨"team3", some "답변을 보완하세요", "품질 기준 미달"⟩ rfl rfl
  exact ⟨h.1, h.2.1, h.2.2.2 rfl⟩

/-! ## Retrieval-stage theorems -/

/-- C6: a fetched unit whose judgment parses is accepted if and only if both
graded scores clear their configured thresholds; acceptance of a unit depends
only on that unit's own judgment (the list is filtered pointwise). -/
theorem doc_accepted_iff_both_thresholds {Doc : Type}
    (evalDoc : Doc → Except String DocEvaluationResult) (docs : List Doc)
    (d : Doc) (r : DocEvaluationResult) (h : evalDoc d = .ok r) :
    d ∈ accepted_docs evalDoc docs ↔
      d ∈ docs ∧ semantic_relevance_THRESHOLD ≤ r.semantic_relevance ∧
        is_detailed_THRESHOLD ≤ r.is_detailed := by
  unfold accepted_docs
  rw [List.mem_filter]
  unfold doc_passes
  rw [h]
  simp

/-- Witness for C6: a unit scored 1.00 / 1.00 is accepted. -/
theorem doc_accepted_iff_both_thresholds_witness :
    (0 : Nat) ∈ accepted_docs fullScoreJudge [0] :=
  (doc_accepted_iff_both_thresholds fullScoreJudge [0] 0 ⟨1, 1, ""⟩ rfl).mpr
    ⟨by decide, by decide, by decide⟩

/-- Applying any team2 node update only extends the two accumulator channels
(the `operator.add` reducer concatenates the written value). -/
theorem applyTeam2Update_extends {Doc : Type} (s : Team2State Doc)
    (u : Team2Update Doc) :
    (applyTeam2Update s u).rag_docs.getD [] =
      s.rag_docs.getD [] ++ u.rag_docs.getD [] ∧
    (applyTeam2Update s u).web_docs.getD [] =
      s.web_docs.getD [] ++ u.web_docs.getD [] := by
  rcases hr : u.rag_docs with _ | l <;> rcases hw : u.web_docs with _ | m <;>
    simp [applyTeam2Update, hr, hw]

/-- Every node of the team2 subgraph only extends the accumulator channels. -/
theorem team2NodeStep_extends {Doc : Type} (s : Team2State Doc)
    (e : Team2Event Doc) :
    ∃ tr tw,
      (team2NodeStep s e).rag_docs.getD [] = s.rag_docs.getD [] ++ tr ∧
      (team2NodeStep s e).web_docs.getD [] = s.web_docs.getD [] ++ tw := by
  cases e <;>
    exact ⟨_, _, (applyTeam2Update_extends s _).1, (applyTeam2Update_extends s _).2⟩

/-- C8: across any retrieval-stage execution the accumulated document channels
only grow at the end — the prior contents are a prefix of the new contents —
and the length of the accepted-evidence collection is monotonically
non-decreasing; no operation removes or replaces an already-accumulated
entry. -/
theorem accepted_evidence_monotone {Doc : Type}
    (events : List (Team2Event Doc)) :
    ∀ s : Team2State Doc,
      (∃ tr, (team2Exec s events).rag_docs.getD [] = s.rag_docs.getD [] ++ tr) ∧
      (∃ tw, (team2Exec s events).web_docs.getD [] = s.web_docs.getD [] ++ tw) ∧
      (accepted_evidence s).length ≤
        (accepted_evidence (team2Exec s events)).length := by
  induction events with
  | nil =>
    intro s
    exact ⟨⟨[], by simp [team2Exec]⟩, ⟨[], by simp [team2Exec]⟩, le_refl _⟩
  | cons e es ih =>
    intro s
    obtain ⟨tr1, tw1, h1, h2⟩ := team2NodeStep_extends s e
    obtain ⟨⟨tr2, h3⟩, ⟨tw2, h4⟩, _⟩ := ih (team2NodeStep s e)
    have hr : (team2Exec s (e :: es)).rag_docs.getD [] =
        s.rag_docs.getD [] ++ (tr1 ++ tr2) := by
      rw [team2Exec, h3, h1, List.append_assoc]
    have hw : (team2Exec s (e :: es)).web_docs.getD [] =
        s.web_docs.getD [] ++ (tw1 ++ tw2) := by
      rw [team2Exec, h4, h2, List.append_assoc]
    refine ⟨⟨_, hr⟩, ⟨_, hw⟩, ?_⟩
    simp only [accepted_evidence, hr, hw, List.length_append]
    omega

/-- Every branch of `evaluate_documents` writes back the full copied
accumulators (possibly extended by the newly accepted units) as its channel
update. -/
theorem evaluate_documents_reemits {Doc : Type}
    (evalDoc : Doc → Except String DocEvaluationResult) (s : Team2State Doc) :
    ∃ xr xw,
      (evaluate_documents evalDoc s).rag_docs =
        some (s.rag_docs.getD [] ++ xr) ∧
      (evaluate_documents evalDoc s).web_docs =
        some (s.web_docs.getD [] ++ xw) := by
  by_cases he : s.last_message.source_docs.isEmpty
  · refine ⟨[], [], ?_, ?_⟩ <;>
    · simp only [evaluate_documents]
      split_ifs <;> simp_all
  · by_cases hsw : s.last_message.name = "web_search_result"
    · refine ⟨[], accepted_docs evalDoc s.last_message.source_docs, ?_, ?_⟩ <;>
      · simp only [evaluate_documents]
        split_ifs <;> simp_all
    · refine ⟨accepted_docs evalDoc s.last_message.source_docs, [], ?_, ?_⟩ <;>
      · simp only [evaluate_documents]
        split_ifs <;> simp_all

/-- C10: because the evaluator node emits the entire copied accumulator into a
concatenation-reduced channel, applying one `evaluate_documents` step makes
every document already in the channel appear at least one additional time —
the stored lists admit duplicates and re-append all prior entries on every
attempt. -/
theorem evaluator_reappends_accumulated_docs {Doc : Type} [DecidableEq Doc]
    (evalDoc : Doc → Except String DocEvaluationResult) (s : Team2State Doc)
    (d : Doc) :
    (d ∈ s.rag_docs.getD [] →
      (s.rag_docs.getD []).count d + 1 ≤
        ((team2NodeStep s (Team2Event.evalDocs evalDoc)).rag_docs.getD []).count d) ∧
    (d ∈ s.web_docs.getD [] →
      (s.web_docs.getD []).count d + 1 ≤
        ((team2NodeStep s (Team2Event.evalDocs evalDoc)).web_docs.getD []).count d) := by
  obtain ⟨xr, xw, hr, hw⟩ := evaluate_documents_reemits evalDoc s
  constructor
  · intro hd
    have hnew : (team2NodeStep s (Team2Event.evalDocs evalDoc)).rag_docs.getD [] =
        s.rag_docs.getD [] ++ (s.rag_docs.getD [] ++ xr) := by
      simp only [team2NodeStep, applyTeam2Update, hr, Option.getD_some]
    have hpos : 0 < (s.rag_docs.getD []).count d := List.count_pos_iff.mpr hd
    rw [hnew, List.count_append, List.count_append]
    omega
  · intro hd
    have hnew : (team2NodeStep s (Team2Event.evalDocs evalDoc)).web_docs.getD [] =
        s.web_docs.getD [] ++ (s.web_docs.getD [] ++ xw) := by
      simp only [team2NodeStep, applyTeam2Update, hw, Option.getD_some]
    have hpos : 0 < (s.web_docs.getD []).count d := List.count_pos_iff.mpr hd
    rw [hnew, List.count_append, List.count_append]
    omega

/-- Witness for C10: a document already accumulated once appears at least
twice after the next evaluator invocation. -/
theorem evaluator_reappends_accumulated_docs_witness :
    (oneDocState.rag_docs.getD []).count 7 + 1 ≤
      ((team2NodeStep oneDocState
        (Team2Event.evalDocs zeroScoreJudge)).rag_docs.getD []).count 7 :=
  (evaluator_reappends_accumulated_docs zeroScoreJudge oneDocState 7).1 (by decide)

/-- C7 counterexample: an empty fetch on a non-final attempt (retry counter 0,
budget 4) does consume one retry unit, but its recorded `failed_reason` is the
empty string — not the distinct `no_docs_to_evaluate` tag the claim
requires. -/
theorem empty_fetch_reason_refuted :
    (evaluate_documents zeroScoreJudge emptyFetchState).team2_retries = some 1 ∧
    (evaluate_documents zeroScoreJudge emptyFetchState).message.failed_reason = "" ∧
    ¬ ((evaluate_documents zeroScoreJudge emptyFetchState).message.failed_reason =
        "no_docs_to_evaluate") := by
  decide

/-- C7 amended: an empty fetch always consumes exactly one unit of the stage
retry budget; the distinct `no_docs_to_evaluate` reason is recorded only when
that attempt exhausts `MAX_RETRIES_TEAM2` (otherwise the recorded reason is
empty), and an empty-fetch attempt is never recorded with the generic
`budget_exhausted` quality-failure reason. -/
theorem empty_fetch_consumes_budget_amended {Doc : Type}
    (evalDoc : Doc → Except String DocEvaluationResult) (s : Team2State Doc)
    (h : s.last_message.source_docs = []) :
    (evaluate_documents evalDoc s).team2_retries = some (s.team2_retries + 1) ∧
    (evaluate_documents evalDoc s).message.failed_reason =
      (if MAX_RETRIES_TEAM2 ≤ s.team2_retries + 1 then "no_docs_to_evaluate"
       else "") ∧
    ¬ ((evaluate_documents evalDoc s).message.failed_reason =
        "budget_exhausted") := by
  have he : s.last_message.source_docs.isEmpty = true := by simp [h]
  by_cases hm : MAX_RETRIES_TEAM2 ≤ s.team2_retries + 1
  · simp [evaluate_documents, he, hm]
  · by_cases hsw : s.last_message.name = "web_search_result" <;>
      simp [evaluate_documents, he, hm, hsw]

/-- Witness for the amended C7: an empty fetch on the budget-exhausting
attempt (counter 3 of 4) consumes the last retry unit and records the
distinct `no_docs_to_evaluate` reason. -/
theorem empty_fetch_consumes_budget_amended_witness :
    (evaluate_documents zeroScoreJudge emptyFetchLastState).team2_retries =
      some 4 ∧
    (evaluate_documents zeroScoreJudge emptyFetchLastState).message.failed_reason =
      "no_docs_to_evaluate" := by
  have h := empty_fetch_consumes_budget_amended zeroScoreJudge
    emptyFetchLastState rfl
  exact ⟨h.1, h.2.1.trans (by decide)⟩

/-- C5 (code bug): concrete retrieval-stage executions showing the intended
escalation policy is broken.  After a single failed primary (RAG) attempt the
stage retry counter is 1, strictly below the router budget of 2, yet
`retrieval_router` escalates to `web_search` instead of retrying the primary
source — `state.get("web_docs") is not None` is already true on the very
first evaluation because the channel is initialised to an empty list.  And
when the accepted total reaches the `total_docs_required` quota the evaluator
reports `pass`, but the router still returns `web_search` rather than `END`,
because it consults a `status` key that no node of this graph ever writes. -/
theorem retrieval_escalation_code_bug :
    (team2Exec (team2Init : Team2State Nat)
        [Team2Event.ragSearch true (.ok [1]),
         Team2Event.evalDocs zeroScoreJudge]).team2_retries = 1 ∧
    1 < team2_graph_MAX_RETRIES ∧
    retrieval_router (team2Exec (team2Init : Team2State Nat)
        [Team2Event.ragSearch true (.ok [1]),
         Team2Event.evalDocs zeroScoreJudge]) = T2Route.web_search ∧
    (team2Exec (team2Init : Team2State Nat)
        [Team2Event.ragSearch true (.ok [1, 2, 3, 4, 5]),
         Team2Event.evalDocs fullScoreJudge]).last_message.content = "pass" ∧
    retrieval_router (team2Exec (team2Init : Team2State Nat)
        [Team2Event.ragSearch true (.ok [1, 2, 3, 4, 5]),
         Team2Event.evalDocs fullScoreJudge]) = T2Route.web_search ∧
    T2Route.web_search ≠ T2Route.finish := by
  decide

/-! ## Stage retry-loop theorems -/

/-- The team1 subgraph loop never changes the `team1_retries` channel (the
evaluator's increment is an in-place snapshot write, not a returned update)
and appends exactly one outcome per round. -/
theorem team1Loop_channels (os : List String) :
    ∀ s : Team1State,
      (team1Loop s os).team1_retries = s.team1_retries ∧
      (team1Loop s os).outcome_count = s.outcome_count + os.length := by
  induction os with
  | nil => intro s; exact ⟨rfl, rfl⟩
  | cons o os ih =>
    intro s
    have h := ih (applyTeam1Update s (evaluate_question o))
    rw [team1Loop]
    refine ⟨h.1.trans rfl, h.2.trans ?_⟩
    simp [applyTeam1Update, evaluate_question]
    omega

/-- The team3 subgraph loop never changes the `team3_retries` channel and
appends exactly one outcome per round. -/
theorem team3Loop_channels (os : List String) :
    ∀ s : Team3State,
      (team3Loop s os).team3_retries = s.team3_retries ∧
      (team3Loop s os).outcome_count = s.outcome_count + os.length := by
  induction os with
  | nil => intro s; exact ⟨rfl, rfl⟩
  | cons o os ih =>
    intro s
    have h := ih (applyTeam3Update s (evaluate_answer o))
    rw [team3Loop]
    refine ⟨h.1.trans rfl, h.2.trans ?_⟩
    simp [applyTeam3Update, evaluate_answer]
    omega

/-- C4 (code bug): the stage retry counters of stages 1 and 3 never persist —
the evaluators increment them only by in-place snapshot writes which langgraph
discards — so after any number of failing rounds the counter channel still
reads 0 and both stage routers keep retrying; in particular four failing
team1 rounds record 4 outcomes, exceeding `MAX_RETRIES_TEAM1 + 1 = 3`, with a
fifth attempt still scheduled. -/
theorem stage_retry_counters_never_persist :
    (∀ outcomes : List String,
      (team1Loop ⟨0, 0⟩ outcomes).team1_retries = 0 ∧
      decide_next_step (team1Loop ⟨0, 0⟩ outcomes) = T1Route.process_question) ∧
    (∀ outcomes : List String,
      (team3Loop ⟨0, 0⟩ outcomes).team3_retries = 0 ∧
      decide_final_step (team3Loop ⟨0, 0⟩ outcomes) = T3Route.generate_answer) ∧
    (team1Loop ⟨0, 0⟩ ["fail", "fail", "fail", "fail"]).outcome_count = 4 ∧
    MAX_RETRIES_TEAM1 + 1 < 4 := by
  refine ⟨fun os => ?_, fun os => ?_, ?_, by decide⟩
  · have h := team1Loop_channels os ⟨0, 0⟩
    refine ⟨h.1, ?_⟩
    simp [decide_next_step, team1_status, h.1, team1_graph_MAX_RETRIES]
  · have h := team3Loop_channels os ⟨0, 0⟩
    refine ⟨h.1, ?_⟩
    simp [decide_final_step, team3_status, h.1, team3_graph_MAX_RETRIES]
  · have h := team1Loop_channels ["fail", "fail", "fail", "fail"] ⟨0, 0⟩
    exact h.2.trans rfl

end AgentExpert
